import Mathlib

/-!
Verification of `graphql_federation_example` (src/main.py): a strawberry
GraphQL tutorial exposing a `Book` store through a `books` query, an
`addBook` mutation and a `count` subscription.

The resolvers and the in-memory store are embedded directly from
`src/main.py`.  The GraphQL execution engine itself (parsing, envelope
assembly, mutation sequencing, subscription delivery) is the imported
`strawberry` framework and is not part of the repository's sources; where
a claim depends on it, the engine behaviour is modelled from the spec and
marked as such in the doc comments.
-/

/-- `Book` type from src/main.py: a title and an author, both strings. -/
structure Book where
  title : String
  author : String
deriving DecidableEq, Repr

/-- The in-memory store (`database` in src/main.py): a list of books,
initially holding two hard-coded entries. -/
def database : List Book :=
  [ { title := "The Great Gatsby", author := "F. Scott Fitzgerald" },
    { title := "Gatsby 2", author := "F. Scott Fitzgerald" } ]

/-- A store state: the mutable global list is embedded as explicit state. -/
abbrev Store := List Book

/-- `get_books` from src/main.py: returns the database unchanged.
State-passing form: the resolver reads the store and leaves it as is. -/
def get_books (db : Store) : List Book × Store := (db, db)

/-- `Mutation.add_book` from src/main.py: builds a `Book` from the
arguments, appends it to the database, and returns it. -/
def add_book (title author : String) (db : Store) : Book × Store :=
  let book : Book := { title := title, author := author }
  (book, db ++ [book])

/-- `Subscription.count` from src/main.py: an async generator yielding
`i` for `i in range(target)`.  Embedded as the (finite) list of yielded
values; Python's `range` on a non-positive bound is empty, captured by
`Int.toNat`. -/
def count (target : Int) : List Int :=
  (List.range target.toNat).map Int.ofNat

/-- JSON-like result trees (the `ResultNode` of the response envelope). -/
inductive JValue where
  | str : String → JValue
  | int : Int → JValue
  | obj : List (String × JValue) → JValue
  | arr : List JValue → JValue

/-- Look a key up in an object result node. -/
def JValue.lookupField : JValue → String → Option JValue
  | .obj fields, k => fields.lookup k
  | _, _ => none

/-- A GraphQL response envelope: a data tree plus a list of error
messages. -/
structure Envelope where
  data : JValue
  errors : List String

/-- Serialise one book into its result-tree object, as the selection
`{ title author }` produces it. -/
def bookToResult (b : Book) : JValue :=
  .obj [("title", .str b.title), ("author", .str b.author)]

/-- The schema registry as far as the claims need it: the root types'
field names, built once (`schema = strawberry.Schema(...)` in
src/main.py). -/
structure SchemaRegistry where
  queryFields : List String
  mutationFields : List String
  subscriptionFields : List String
deriving DecidableEq, Repr

/-- The schema constructed at startup in src/main.py. -/
def schema : SchemaRegistry :=
  { queryFields := ["books"]
    mutationFields := ["addBook"]
    subscriptionFields := ["count"] }

/-- The whole server state: the registry built at startup plus the
mutable book store. -/
structure ServerState where
  registry : SchemaRegistry
  store : Store
deriving DecidableEq, Repr

/-- The state at startup: the constructed schema and the two-element
store. -/
def initialServerState : ServerState :=
  { registry := schema, store := database }

/-- The operations the schema of src/main.py accepts. -/
inductive Operation where
  | booksQuery
  | addBookMutation (title author : String)
  | countSubscription (target : Int)

/-- Modelled from the spec: the response envelope the Executor assembles
for the query `{ books { title author } }` — `data.books` is the list
returned by the `get_books` resolver, serialised in order, with no
errors.  (The Executor itself is the imported framework, absent from
src/.) -/
def booksEnvelope (books : List Book) : Envelope :=
  { data := .obj [("books", .arr (books.map bookToResult))], errors := [] }

/-- Modelled from the spec: the response envelope for the mutation
`addBook(title:..., author:...)` — `data.addBook` is the book the
resolver returned, with no errors. -/
def addBookEnvelope (b : Book) : Envelope :=
  { data := .obj [("addBook", bookToResult b)], errors := [] }

/-- Modelled from the spec: the per-event response envelope of the
`count` subscription — each yielded event value `i` is bound as the new
root value and emitted as `data.count = i`. -/
def countEnvelope (i : Int) : Envelope :=
  { data := .obj [("count", .int i)], errors := [] }

/-- Modelled from the spec: the stream of envelopes a `count(target:)`
subscription produces — one envelope per yielded event, in event order. -/
def countEnvelopes (target : Int) : List Envelope :=
  (count target).map countEnvelope

/-- Modelled from the spec: executing one operation against the server
state.  Queries and subscriptions only read; the mutation threads the
store through `add_book`.  The registry takes no part in the state
transition (no mutation path exists). -/
def executeOperation : Operation → ServerState → List Envelope × ServerState
  | .booksQuery, s =>
      let (books, db) := get_books s.store
      ([booksEnvelope books], { s with store := db })
  | .addBookMutation t a, s =>
      let (b, db) := add_book t a s.store
      ([addBookEnvelope b], { s with store := db })
  | .countSubscription n, s =>
      (countEnvelopes n, s)

/-- Modelled from the spec: a mutation document whose root fields are
`addBook` calls executes them strictly in document order, one at a time,
each resolver starting from the store state the previous one left. -/
def executeMutationDocument (fields : List (String × String)) (db : Store) :
    List Book × Store :=
  match fields with
  | [] => ([], db)
  | (t, a) :: rest =>
      let (b, db1) := add_book t a db
      let (bs, db2) := executeMutationDocument rest db1
      (b :: bs, db2)

/-- Modelled from the spec: cancelling a subscription after the consumer
has received `k` envelopes — the engine stops requesting further events,
so the consumer observes exactly the first `k` envelopes of the stream. -/
def cancelAfter (k : Nat) (target : Int) : List Envelope :=
  (countEnvelopes target).take k

/-- Iterating the books query `n` times from a state (read path only). -/
def iterateBooksQuery (n : Nat) (s : ServerState) : ServerState :=
  (fun st => (executeOperation .booksQuery st).2)^[n] s

/-- Modelled from the spec: the Executor's round-trip of one root field —
a field `f` whose resolver returned the scalar value `v` appears in the
envelope as `data.f = v`, unaltered. -/
def executeScalarField (f : String) (v : JValue) : Envelope :=
  { data := .obj [(f, v)], errors := [] }

/-- Executing a whole list of operations in sequence, keeping the final
server state. -/
def executeAll (ops : List Operation) (s : ServerState) : ServerState :=
  ops.foldl (fun st op => (executeOperation op st).2) s

/-- Claim C1: on the initial two-element store, the query
`\x7b books \x7b title author \x7d \x7d` returns the two stored books with
their titles and authors, in store order, with an empty error list; and in
general the books field is exactly the store's contents in order. -/
theorem booksQuery_initial_result :
    executeOperation .booksQuery initialServerState =
      ([{ data := .obj [("books", .arr
            [ .obj [("title", .str "The Great Gatsby"),
                    ("author", .str "F. Scott Fitzgerald")],
              .obj [("title", .str "Gatsby 2"),
                    ("author", .str "F. Scott Fitzgerald")] ])],
          errors := [] }], initialServerState) ∧
    ∀ db : Store,
      booksEnvelope (get_books db).1 =
        { data := .obj [("books", .arr (db.map bookToResult))], errors := [] } :=
  ⟨rfl, fun _ => rfl⟩

/-- Claim C2: `addBook(title:"New Book", author:"me")` against any store
appends exactly one entry with those values and returns the
`data.addBook` envelope carrying them; after a 2-entry store, a
subsequent books query sees 3 entries with the new one last. -/
theorem addBook_appends_one_entry (t a : String) (db : Store) :
    executeOperation (.addBookMutation t a) { registry := schema, store := db } =
      ([addBookEnvelope { title := t, author := a }],
       { registry := schema, store := db ++ [{ title := t, author := a }] }) ∧
    addBookEnvelope { title := "New Book", author := "me" } =
      { data := .obj [("addBook",
          .obj [("title", .str "New Book"), ("author", .str "me")])],
        errors := [] } ∧
    (get_books (db ++ [{ title := t, author := a }])).1.getLast? =
      some { title := t, author := a } ∧
    (db.length = 2 →
      (get_books (db ++ [{ title := t, author := a }])).1.length = 3) := by
  refine ⟨rfl, rfl, ?_, ?_⟩
  · simp [get_books]
  · intro h
    simp [get_books, h]

/-- Witness for C2 at the initial database. -/
theorem addBook_appends_one_entry_witness :
    executeOperation (.addBookMutation "New Book" "me")
        { registry := schema, store := database } =
      ([addBookEnvelope { title := "New Book", author := "me" }],
       { registry := schema,
         store := database ++ [{ title := "New Book", author := "me" }] }) ∧
    (get_books (database ++ [{ title := "New Book", author := "me" }])).1.length = 3 :=
  ⟨(addBook_appends_one_entry "New Book" "me" database).1,
   (addBook_appends_one_entry "New Book" "me" database).2.2.2 rfl⟩

/-- Claim C3: a `count(target: N)` subscription produces exactly `N`
envelopes, and the `i`-th envelope (for `i < N`) carries the
event-derived value `i`; the stream is finite because the generator
terminates. -/
theorem count_subscription_envelopes (N : Nat) :
    (countEnvelopes (Int.ofNat N)).length = N ∧
    ∀ i : Nat, i < N →
      (countEnvelopes (Int.ofNat N))[i]? = some (countEnvelope (Int.ofNat i)) := by
  constructor
  · simp [countEnvelopes, count]
  · intro i h
    simp [countEnvelopes, count, h]

/-- Witness for C3 at `N = 3`, `i = 1`. -/
theorem count_subscription_envelopes_witness :
    (countEnvelopes (Int.ofNat 3)).length = 3 ∧
    (countEnvelopes (Int.ofNat 3))[1]? = some (countEnvelope (Int.ofNat 1)) :=
  ⟨(count_subscription_envelopes 3).1,
   (count_subscription_envelopes 3).2 1 (by decide)⟩

/-- Claim C4: two `addBook` root fields of one mutation document execute
strictly in document order: the second resolver starts from the store
the first one left, and the final store is the old store extended with
the first book then the second. -/
theorem mutation_root_fields_sequential (t1 a1 t2 a2 : String) (db : Store) :
    executeMutationDocument [(t1, a1), (t2, a2)] db =
      (let r1 := add_book t1 a1 db
       let r2 := add_book t2 a2 r1.2
       ([r1.1, r2.1], r2.2)) ∧
    (executeMutationDocument [(t1, a1), (t2, a2)] db).2 =
      db ++ [{ title := t1, author := a1 }] ++ [{ title := t2, author := a2 }] :=
  ⟨rfl, rfl⟩

/-- Claim C5: round-trip — a field whose resolver returned scalar `v`
yields `data.f = v` exactly; in particular `add_book` returns a book
carrying exactly the supplied title and author arguments, and the
envelope shows them unaltered. -/
theorem scalar_roundtrip (f : String) (v : JValue) (t a : String) (db : Store) :
    (executeScalarField f v).data.lookupField f = some v ∧
    (add_book t a db).1 = { title := t, author := a } ∧
    (addBookEnvelope (add_book t a db).1).data.lookupField "addBook" =
      some (.obj [("title", .str t), ("author", .str a)]) := by
  refine ⟨?_, rfl, ?_⟩
  · simp [executeScalarField, JValue.lookupField, List.lookup]
  · simp [addBookEnvelope, bookToResult, add_book, JValue.lookupField, List.lookup]

/-- Claim C6: cancelling a `count(target: N)` subscription after the
consumer received `k < N` envelopes yields no further envelopes: the
consumer observes exactly `k` envelopes and nothing past the `k`-th. -/
theorem cancellation_stops_stream (N k : Nat) (h : k < N) :
    (cancelAfter k (Int.ofNat N)).length = k ∧
    ∀ j : Nat, k ≤ j → (cancelAfter k (Int.ofNat N))[j]? = none := by
  have hlen : (countEnvelopes (Int.ofNat N)).length = N := by
    simp [countEnvelopes, count]
  constructor
  · simp only [cancelAfter, List.length_take]
    rw [hlen]
    exact Nat.min_eq_left h.le
  · intro j hj
    apply List.getElem?_eq_none
    calc (cancelAfter k (Int.ofNat N)).length ≤ k := by
          simp [cancelAfter]
      _ ≤ j := hj

/-- Witness for C6 at `N = 2`, `k = 1`, probing position 3. -/
theorem cancellation_stops_stream_witness :
    (cancelAfter 1 (Int.ofNat 2)).length = 1 ∧
    (cancelAfter 1 (Int.ofNat 2))[3]? = none :=
  ⟨(cancellation_stops_stream 2 1 (by decide)).1,
   (cancellation_stops_stream 2 1 (by decide)).2 3 (by decide)⟩

/-- Claim C7: the schema registry built at startup is immutable — no
query, mutation or subscription execution changes it, and any sequence
of executions observes the same registry. -/
theorem registry_immutable :
    (∀ (op : Operation) (s : ServerState),
      (executeOperation op s).2.registry = s.registry) ∧
    ∀ (ops : List Operation) (s : ServerState),
      (executeAll ops s).registry = s.registry := by
  have hstep : ∀ (op : Operation) (s : ServerState),
      (executeOperation op s).2.registry = s.registry := by
    intro op s; cases op <;> rfl
  refine ⟨hstep, ?_⟩
  intro ops
  induction ops with
  | nil => intro s; rfl
  | cons op rest ih =>
      intro s
      calc (executeAll (op :: rest) s).registry
          = (executeAll rest (executeOperation op s).2).registry := rfl
        _ = (executeOperation op s).2.registry := ih _
        _ = s.registry := hstep op s

/-- Claim C8: frame property of `add_book` — it changes the store only by
appending one book at the end: length grows by one, every
previously-stored element is unchanged at its index, and the new book is
last. -/
theorem add_book_frame (t a : String) (db : Store) :
    (add_book t a db).2 = db ++ [{ title := t, author := a }] ∧
    (add_book t a db).2.length = db.length + 1 ∧
    (add_book t a db).2.take db.length = db ∧
    (∀ i : Nat, i < db.length → (add_book t a db).2[i]? = db[i]?) ∧
    (add_book t a db).2.getLast? = some { title := t, author := a } := by
  refine ⟨rfl, ?_, ?_, ?_, ?_⟩
  · simp [add_book]
  · simp [add_book]
  · intro i hi
    simp [add_book, List.getElem?_append, hi]
  · simp [add_book]

/-- Witness for C8 at the initial database, index 0. -/
theorem add_book_frame_witness :
    (add_book "x" "y" database).2 = database ++ [{ title := "x", author := "y" }] ∧
    (add_book "x" "y" database).2[0]? = database[0]? :=
  ⟨(add_book_frame "x" "y" database).1,
   (add_book_frame "x" "y" database).2.2.2.1 0 (by decide)⟩

/-- Claim C9: for every non-positive target, the `count` subscription
yields the empty stream of envelopes — Python's `range` on a
non-positive bound is empty, so the generator terminates at once
without emitting. -/
theorem count_nonpositive_empty (target : Int) (h : target ≤ 0) :
    countEnvelopes target = [] ∧ count target = [] := by
  have h0 : target.toNat = 0 := Int.toNat_of_nonpos h
  constructor <;> simp [countEnvelopes, count, h0]

/-- Witness for C9 at `target = -1`. -/
theorem count_nonpositive_empty_witness :
    countEnvelopes (-1) = [] ∧ count (-1) = [] :=
  count_nonpositive_empty (-1) (by decide)

/-- Claim C10: the read path is pure — a books query leaves the store
(and the whole server state) unchanged, any number of books queries
leaves it unchanged, and two consecutive books queries with no
intervening mutation return identical results. -/
theorem books_query_pure (s : ServerState) (n : Nat) :
    (executeOperation .booksQuery s).2 = s ∧
    iterateBooksQuery n s = s ∧
    (executeOperation .booksQuery (executeOperation .booksQuery s).2).1 =
      (executeOperation .booksQuery s).1 := by
  have hstep : ∀ st : ServerState, (executeOperation .booksQuery st).2 = st := by
    intro st; cases st; rfl
  refine ⟨hstep s, ?_, by rw [hstep]⟩
  induction n with
  | zero => rfl
  | succ k ih =>
      calc iterateBooksQuery (k + 1) s
          = iterateBooksQuery k ((executeOperation .booksQuery s).2) := by
            simp [iterateBooksQuery, Function.iterate_succ_apply]
        _ = iterateBooksQuery k s := by rw [hstep]
        _ = s := ih
